import Mathlib

/-!
Verification development for the NCDS HTML generator pipeline:
node-to-component classification (`mapToNcdsComponent` over the ordered
`NCDS_COMPONENT_RULES`), heuristic property inferencers (`inferSize`,
`inferButtonTheme`, colors, item extraction), the mapping validator
(`validateNcdsMapping`) and the recursive markup generator
(`generateFromDesign` and its per-node rendering with usage accounting).

JavaScript-flavoured primitives (substring scan, lower-casing, truthiness
and the `||` default operator) are modelled explicitly so that every
definition mirrors the source line by line.
-/

/-- ASCII lower-casing of one character, as `String.prototype.toLowerCase`
acts on the ASCII range (the only range the source's rule tokens use). -/
def charToLower (c : Char) : Char :=
  if 'A' ≤ c ∧ c ≤ 'Z' then Char.ofNat (c.toNat + 32) else c

/-- Lower-casing of a whole string, modelling `name.toLowerCase()`. -/
def toLowerStr (s : String) : String := ⟨s.data.map charToLower⟩

/-- Boolean prefix test on character lists. -/
def hasPrefixChars : List Char → List Char → Bool
  | [], _ => true
  | _ :: _, [] => false
  | a :: as, b :: bs => a == b && hasPrefixChars as bs

/-- Boolean infix (substring) test on character lists. -/
def hasInfixChars (pat : List Char) : List Char → Bool
  | [] => hasPrefixChars pat []
  | c :: rest => hasPrefixChars pat (c :: rest) || hasInfixChars pat rest

/-- `s.includes(pat)` of JavaScript: `pat` occurs as a substring of `s`. -/
def jsIncludes (s pat : String) : Bool := hasInfixChars pat.data s.data

/-- JavaScript truthiness of an optional string: defined and non-empty. -/
def jsTruthyStr : Option String → Bool
  | none => false
  | some s => !(s == "")

/-- JavaScript truthiness of an optional boolean: defined and `true`. -/
def jsTruthyBool : Option Bool → Bool
  | none => false
  | some b => b

/-- `a || d` for an optional string `a` and a string default `d`. -/
def jsOrStr (a : Option String) (d : String) : String :=
  if jsTruthyStr a then a.getD d else d

/-- `a || d` where `a` is a plain string (falsy exactly when empty). -/
def jsOrRaw (a d : String) : String := if a == "" then d else a

/-- `a || b` on two optional strings, keeping the (possibly falsy) second
operand as-is, exactly as the JavaScript `||` operator does. -/
def jsOrOptStr (a b : Option String) : Option String :=
  if jsTruthyStr a then a else b

/-- `a || d` for an optional number: `0` is falsy in JavaScript. -/
def jsOrInt (a : Option Int) (d : Int) : Int :=
  match a with
  | none => d
  | some n => if n = 0 then d else n

/-- JavaScript whitespace for `String.prototype.trim` (the characters the
generated fragments can actually contain). -/
def isWhitespaceChar (c : Char) : Bool :=
  c == ' ' || c == '\n' || c == '\t' || c == '\r'

/-- `s.trim()` of JavaScript. -/
def jsTrim (s : String) : String :=
  ⟨((s.data.dropWhile isWhitespaceChar).reverse.dropWhile isWhitespaceChar).reverse⟩

/-- Map with the 0-based position inside the traversed list, starting the
count at `i`; models `Array.prototype.map((x, index) => ...)`. -/
def mapWithIdxFrom (f : Nat → α → β) : Nat → List α → List β
  | _, [] => []
  | i, a :: as => f i a :: mapWithIdxFrom f (i + 1) as

/-- Layout box of a design node (`node.layout`), as far as the generator
reads it: a width and a height. -/
structure Layout where
  width : Float
  height : Float

/-- `SimplifiedNode` of `extractors/types.js`, restricted to the fields the
generator and the mapper read: id, name, type string, optional text,
optional children, optional opacity, optional border radius, optional
layout box. -/
inductive SimplifiedNode where
  | mk (id : String) (name : String) (type : String) (text : Option String)
       (children : Option (List SimplifiedNode)) (opacity : Option Float)
       (borderRadius : Option String) (layout : Option Layout)

def SimplifiedNode.id : SimplifiedNode → String
  | ⟨i, _, _, _, _, _, _, _⟩ => i

def SimplifiedNode.name : SimplifiedNode → String
  | ⟨_, n, _, _, _, _, _, _⟩ => n

def SimplifiedNode.type : SimplifiedNode → String
  | ⟨_, _, t, _, _, _, _, _⟩ => t

def SimplifiedNode.text : SimplifiedNode → Option String
  | ⟨_, _, _, t, _, _, _, _⟩ => t

def SimplifiedNode.children : SimplifiedNode → Option (List SimplifiedNode)
  | ⟨_, _, _, _, c, _, _, _⟩ => c

def SimplifiedNode.opacity : SimplifiedNode → Option Float
  | ⟨_, _, _, _, _, o, _, _⟩ => o

def SimplifiedNode.borderRadius : SimplifiedNode → Option String
  | ⟨_, _, _, _, _, _, b, _⟩ => b

def SimplifiedNode.layout : SimplifiedNode → Option Layout
  | ⟨_, _, _, _, _, _, _, l⟩ => l

/-- One tab entry as built by `extractTabItems` or by the template
defaults (`{ id?, label, isActive }`). -/
structure TabItem where
  id : Option String := none
  label : String := ""
  isActive : Bool := false
  deriving DecidableEq

/-- One dropdown or breadcrumb entry (`{ label, value? , href? }`). -/
structure ListItem where
  label : String := ""
  value : Option String := none
  href : Option String := none
  deriving DecidableEq

/-- The `props` record of a component mapping.  The source keeps it as a
`Record<string, any>`; every key some mapper writes or some template reads
appears here, absent keys being `none` (JavaScript `undefined`). -/
structure NcdsProps where
  label : Option String := none
  hierarchy : Option String := none
  size : Option String := none
  type : Option String := none
  color : Option String := none
  placeholder : Option String := none
  title : Option String := none
  subtitle : Option String := none
  description : Option String := none
  content : Option String := none
  text : Option String := none
  name : Option String := none
  theme : Option String := none
  position : Option String := none
  tooltipType : Option String := none
  orientation : Option String := none
  breakPoint : Option String := none
  iconName : Option String := none
  leadingIcon : Option String := none
  trailingIcon : Option String := none
  disabled : Option Bool := none
  required : Option Bool := none
  checked : Option Bool := none
  destructive : Option Bool := none
  showValue : Option Bool := none
  fullWidth : Option Bool := none
  backdrop : Option Bool := none
  removable : Option Bool := none
  isOpen : Option Bool := none
  progress : Option Int := none
  currentPage : Option Int := none
  totalPages : Option Int := none
  strokeWidth : Option Int := none
  value : Option Int := none
  min : Option Int := none
  max : Option Int := none
  tabs : Option (List TabItem) := none
  items : Option (List ListItem) := none

/-- `NcdsComponentMapping` of `ncds-component-mapper.ts`. -/
structure NcdsComponentMapping where
  component : String
  props : NcdsProps
  htmlTag : String
  className : String

/-- One `(condition, mapper)` entry of `NCDS_COMPONENT_RULES`. -/
structure ComponentMappingRule where
  condition : SimplifiedNode → Bool
  mapper : SimplifiedNode → NcdsComponentMapping

/-- `inferButtonTheme` of the mapper module. -/
def inferButtonTheme (node : SimplifiedNode) : String :=
  let name := toLowerStr node.name
  if jsIncludes name "primary" then "primary"
  else if jsIncludes name "secondary" then "secondary"
  else if jsIncludes name "destructive" || jsIncludes name "danger" || jsIncludes name "delete" then "destructive"
  else if jsIncludes name "link" then "link"
  else if jsIncludes name "tertiary" then "tertiary"
  else if jsIncludes name "gray" then "secondary-gray"
  else "primary"

/-- `inferSize` of the mapper module: returns `"md"` when the node has no
layout, otherwise scans the lower-cased name against the size tokens in
source order, defaulting to `"md"`. -/
def inferSize (node : SimplifiedNode) : String :=
  match node.layout with
  | none => "md"
  | some _ =>
    let name := toLowerStr node.name
    if jsIncludes name "xxs" || jsIncludes name "tiny" then "xxs"
    else if jsIncludes name "xs" || jsIncludes name "small" then "xs"
    else if jsIncludes name "sm" then "sm"
    else if jsIncludes name "lg" || jsIncludes name "large" then "lg"
    else if jsIncludes name "xl" || jsIncludes name "xlarge" then "xl"
    else if jsIncludes name "2xl" || jsIncludes name "xxlarge" then "2xl"
    else "md"

/-- `inferBadgeColor` of the mapper module. -/
def inferBadgeColor (node : SimplifiedNode) : String :=
  let name := toLowerStr node.name
  if jsIncludes name "success" || jsIncludes name "green" then "success"
  else if jsIncludes name "warning" || jsIncludes name "yellow" then "warning"
  else if jsIncludes name "error" || jsIncludes name "red" then "error"
  else if jsIncludes name "info" || jsIncludes name "blue" then "info"
  else "default"

/-- `inferNotificationType` of the mapper module. -/
def inferNotificationType (node : SimplifiedNode) : String :=
  let name := toLowerStr node.name
  if jsIncludes name "success" then "success"
  else if jsIncludes name "warning" then "warning"
  else if jsIncludes name "error" || jsIncludes name "danger" then "error"
  else if jsIncludes name "info" then "info"
  else "info"

/-- `inferTagColor` of the mapper module. -/
def inferTagColor (node : SimplifiedNode) : String :=
  let name := toLowerStr node.name
  if jsIncludes name "success" || jsIncludes name "green" then "success"
  else if jsIncludes name "warning" || jsIncludes name "yellow" then "warning"
  else if jsIncludes name "error" || jsIncludes name "red" then "error"
  else if jsIncludes name "info" || jsIncludes name "blue" then "info"
  else if jsIncludes name "primary" then "primary"
  else "gray"

/-- `inferIconColor` of the mapper module. -/
def inferIconColor (node : SimplifiedNode) : String :=
  let name := toLowerStr node.name
  if jsIncludes name "primary" || jsIncludes name "red" then "primary"
  else if jsIncludes name "success" || jsIncludes name "green" then "success"
  else if jsIncludes name "warning" || jsIncludes name "yellow" then "warning"
  else if jsIncludes name "error" || jsIncludes name "danger" then "error"
  else if jsIncludes name "info" || jsIncludes name "blue" then "info"
  else "gray"

/-- `findChildText`: first immediate child whose lower-cased name contains
the requested token and whose text is truthy; returns its text. -/
def findChildText (node : SimplifiedNode) (ty : String) : Option String :=
  match node.children with
  | none => none
  | some cs =>
    match cs.find? (fun c => jsIncludes (toLowerStr c.name) ty && jsTruthyStr c.text) with
    | some c => c.text
    | none => none

/-- `extractTabItems`: immediate children that are text nodes or carry
text become tab entries; the active flag comes from the child's name. -/
def extractTabItems (node : SimplifiedNode) : List TabItem :=
  match node.children with
  | none => []
  | some cs =>
    (cs.filter (fun c => c.type == "TEXT" || jsTruthyStr c.text)).map
      (fun c => { id := none
                  label := jsOrStr c.text c.name
                  isActive := jsIncludes (toLowerStr c.name) "active" })

/-- `extractDropdownItems` maps the text-bearing children, with the
0-based position `i` inside the filtered list driving both the label
fallback and the `value` string `i + 1`. -/
def dropdownItemsFrom (i : Nat) (cs : List SimplifiedNode) : List ListItem :=
  mapWithIdxFrom
    (fun k c =>
      { label := jsOrStr c.text ("옵션 " ++ toString (k + 1))
        value := some (toString (k + 1))
        href := none })
    i cs

/-- `extractDropdownItems`: the fixed two-entry default when the node has
no children list; otherwise the text-bearing children indexed from 0. -/
def extractDropdownItems (node : SimplifiedNode) : List ListItem :=
  match node.children with
  | none =>
    [{ label := "옵션 1", value := some "1", href := none },
     { label := "옵션 2", value := some "2", href := none }]
  | some cs => dropdownItemsFrom 0 (cs.filter (fun c => jsTruthyStr c.text))

/-- Button rule: an `INSTANCE` node, or a `FRAME` whose name mentions
button/btn/click/submit. -/
def buttonRule : ComponentMappingRule where
  condition := fun node =>
    node.type == "INSTANCE" ||
      (node.type == "FRAME" &&
        (jsIncludes (toLowerStr node.name) "button" || jsIncludes (toLowerStr node.name) "btn" ||
         jsIncludes (toLowerStr node.name) "click" || jsIncludes (toLowerStr node.name) "submit"))
  mapper := fun node =>
    { component := "Button"
      props := { label := some (jsOrStr node.text node.name)
                 hierarchy := some (inferButtonTheme node)
                 size := some (inferSize node)
                 disabled := some (jsIncludes (toLowerStr node.name) "disabled") }
      htmlTag := "button"
      className := "ncua-btn" }

/-- Input rule: a `FRAME` named input/field, or text without label. -/
def inputRule : ComponentMappingRule where
  condition := fun node =>
    node.type == "FRAME" &&
      (jsIncludes (toLowerStr node.name) "input" || jsIncludes (toLowerStr node.name) "field" ||
       (jsIncludes (toLowerStr node.name) "text" && !jsIncludes (toLowerStr node.name) "label"))
  mapper := fun node =>
    { component := "InputBase"
      props := { placeholder := some (jsOrStr node.text "Enter text...")
                 size := some (inferSize node)
                 disabled := some (jsIncludes (toLowerStr node.name) "disabled")
                 required := some (jsIncludes (toLowerStr node.name) "required") }
      htmlTag := "input"
      className := "ncua-input" }

/-- Checkbox rule. -/
def checkboxRule : ComponentMappingRule where
  condition := fun node =>
    node.type == "FRAME" &&
      (jsIncludes (toLowerStr node.name) "checkbox" || jsIncludes (toLowerStr node.name) "check")
  mapper := fun node =>
    { component := "Checkbox"
      props := { label := some (jsOrStr node.text node.name)
                 checked := some (jsIncludes (toLowerStr node.name) "checked")
                 disabled := some (jsIncludes (toLowerStr node.name) "disabled") }
      htmlTag := "label"
      className := "ncua-checkbox" }

/-- Radio rule. -/
def radioRule : ComponentMappingRule where
  condition := fun node =>
    node.type == "FRAME" && jsIncludes (toLowerStr node.name) "radio"
  mapper := fun node =>
    { component := "Radio"
      props := { label := some (jsOrStr node.text node.name)
                 checked := some (jsIncludes (toLowerStr node.name) "selected")
                 disabled := some (jsIncludes (toLowerStr node.name) "disabled") }
      htmlTag := "label"
      className := "ncua-radio" }

/-- Select rule: select/dropdown/combo on a `FRAME`. -/
def selectRule : ComponentMappingRule where
  condition := fun node =>
    node.type == "FRAME" &&
      (jsIncludes (toLowerStr node.name) "select" || jsIncludes (toLowerStr node.name) "dropdown" ||
       jsIncludes (toLowerStr node.name) "combo")
  mapper := fun node =>
    { component := "Select"
      props := { placeholder := some (jsOrStr node.text "Select an option")
                 size := some (inferSize node)
                 disabled := some (jsIncludes (toLowerStr node.name) "disabled") }
      htmlTag := "select"
      className := "ncua-select" }

/-- Badge rule: badge/tag/chip on a `FRAME` or `TEXT` node. -/
def badgeRule : ComponentMappingRule where
  condition := fun node =>
    (node.type == "FRAME" || node.type == "TEXT") &&
      (jsIncludes (toLowerStr node.name) "badge" || jsIncludes (toLowerStr node.name) "tag" ||
       jsIncludes (toLowerStr node.name) "chip")
  mapper := fun node =>
    { component := "Badge"
      props := { label := some (jsOrStr node.text node.name)
                 color := some (inferBadgeColor node)
                 size := some (inferSize node) }
      htmlTag := "span"
      className := "ncua-badge" }

/-- Modal rule: modal/dialog/popup. -/
def modalRule : ComponentMappingRule where
  condition := fun node =>
    node.type == "FRAME" &&
      (jsIncludes (toLowerStr node.name) "modal" || jsIncludes (toLowerStr node.name) "dialog" ||
       jsIncludes (toLowerStr node.name) "popup")
  mapper := fun node =>
    { component := "Modal"
      props := { isOpen := some true
                 title := some (jsOrStr (findChildText node "title") "Modal Title") }
      htmlTag := "div"
      className := "ncua-modal" }

/-- Tab rule: name contains "tab" but not "table". -/
def tabRule : ComponentMappingRule where
  condition := fun node =>
    node.type == "FRAME" &&
      (jsIncludes (toLowerStr node.name) "tab" && !jsIncludes (toLowerStr node.name) "table")
  mapper := fun node =>
    { component := "HorizontalTab"
      props := { tabs := some (extractTabItems node) }
      htmlTag := "div"
      className := "ncua-tab" }

/-- Pagination rule. -/
def paginationRule : ComponentMappingRule where
  condition := fun node =>
    node.type == "FRAME" &&
      (jsIncludes (toLowerStr node.name) "pagination" || jsIncludes (toLowerStr node.name) "pager")
  mapper := fun node =>
    { component := "Pagination"
      props := { currentPage := some 1
                 totalPages := some 10
                 size := some (inferSize node) }
      htmlTag := "nav"
      className := "ncua-pagination" }

/-- Progress bar rule: "progress" and "bar". -/
def progressBarRule : ComponentMappingRule where
  condition := fun node =>
    node.type == "FRAME" &&
      (jsIncludes (toLowerStr node.name) "progress" && jsIncludes (toLowerStr node.name) "bar")
  mapper := fun node =>
    { component := "ProgressBar"
      props := { progress := some 50
                 size := some (inferSize node) }
      htmlTag := "div"
      className := "ncua-progress-bar" }

/-- Notification rule: notification/alert/toast. -/
def notificationRule : ComponentMappingRule where
  condition := fun node =>
    node.type == "FRAME" &&
      (jsIncludes (toLowerStr node.name) "notification" || jsIncludes (toLowerStr node.name) "alert" ||
       jsIncludes (toLowerStr node.name) "toast")
  mapper := fun node =>
    { component := "Notification"
      props := { title := some (jsOrStr (findChildText node "title") "Notification")
                 description := jsOrOptStr (findChildText node "description") node.text
                 type := some (inferNotificationType node) }
      htmlTag := "div"
      className := "ncua-notification" }

/-- Vertical tab rule: "vertical" and "tab". -/
def verticalTabRule : ComponentMappingRule where
  condition := fun node =>
    node.type == "FRAME" &&
      (jsIncludes (toLowerStr node.name) "vertical" && jsIncludes (toLowerStr node.name) "tab")
  mapper := fun node =>
    { component := "VerticalTab"
      props := { tabs := some (extractTabItems node)
                 type := some "button-primary" }
      htmlTag := "div"
      className := "ncua-vertical-tab" }

/-- Progress circle rule: "progress" with "circle" or "circular". -/
def progressCircleRule : ComponentMappingRule where
  condition := fun node =>
    node.type == "FRAME" &&
      (jsIncludes (toLowerStr node.name) "progress" &&
        (jsIncludes (toLowerStr node.name) "circle" || jsIncludes (toLowerStr node.name) "circular"))
  mapper := fun node =>
    { component := "ProgressCircle"
      props := { progress := some 50
                 size := some (inferSize node) }
      htmlTag := "div"
      className := "ncua-progress-circle" }

/-- Spinner rule: spinner/loading/loader. -/
def spinnerRule : ComponentMappingRule where
  condition := fun node =>
    node.type == "FRAME" &&
      (jsIncludes (toLowerStr node.name) "spinner" || jsIncludes (toLowerStr node.name) "loading" ||
       jsIncludes (toLowerStr node.name) "loader")
  mapper := fun node =>
    { component := "Spinner"
      props := { size := some (inferSize node)
                 text := node.text }
      htmlTag := "div"
      className := "ncua-spinner" }

/-- Tag rule: "tag" but not "stage", on a `FRAME` or `TEXT` node. -/
def tagRule : ComponentMappingRule where
  condition := fun node =>
    (node.type == "FRAME" || node.type == "TEXT") &&
      (jsIncludes (toLowerStr node.name) "tag" && !jsIncludes (toLowerStr node.name) "stage")
  mapper := fun node =>
    { component := "Tag"
      props := { label := some (jsOrStr node.text node.name)
                 color := some (inferTagColor node)
                 size := some (inferSize node) }
      htmlTag := "span"
      className := "ncua-tag" }

/-- Toggle rule: toggle/switch. -/
def toggleRule : ComponentMappingRule where
  condition := fun node =>
    node.type == "FRAME" &&
      (jsIncludes (toLowerStr node.name) "toggle" || jsIncludes (toLowerStr node.name) "switch")
  mapper := fun node =>
    { component := "Toggle"
      props := { checked := some (jsIncludes (toLowerStr node.name) "on")
                 disabled := some (jsIncludes (toLowerStr node.name) "disabled")
                 size := some (inferSize node)
                 text := node.text }
      htmlTag := "label"
      className := "ncua-toggle" }

/-- Tooltip rule. -/
def tooltipRule : ComponentMappingRule where
  condition := fun node =>
    node.type == "FRAME" && jsIncludes (toLowerStr node.name) "tooltip"
  mapper := fun node =>
    { component := "Tooltip"
      props := { title := jsOrOptStr (findChildText node "title") node.text
                 position := some "top" }
      htmlTag := "span"
      className := "ncua-tooltip" }

/-- Slider rule: slider/range. -/
def sliderRule : ComponentMappingRule where
  condition := fun node =>
    node.type == "FRAME" &&
      (jsIncludes (toLowerStr node.name) "slider" || jsIncludes (toLowerStr node.name) "range")
  mapper := fun node =>
    { component := "Slider"
      props := { value := some 50
                 min := some 0
                 max := some 100
                 size := some (inferSize node) }
      htmlTag := "div"
      className := "ncua-slider" }

/-- Breadcrumb rule: breadcrumb/bread. -/
def breadcrumbRule : ComponentMappingRule where
  condition := fun node =>
    node.type == "FRAME" &&
      (jsIncludes (toLowerStr node.name) "breadcrumb" || jsIncludes (toLowerStr node.name) "bread")
  mapper := fun _ =>
    let defaultItems : List ListItem :=
      [{ label := "Home", value := none, href := some "/" },
       { label := "Current", value := none, href := some "#" }]
    { component := "BreadCrumb"
      props := { items := some defaultItems }
      htmlTag := "nav"
      className := "ncua-breadcrumb" }

/-- Divider rule: divider/separator/line on a `FRAME` or `LINE` node.  The
orientation compares `layout?.width > layout?.height`, which is `false`
when the layout is absent (JavaScript `undefined > undefined`). -/
def dividerRule : ComponentMappingRule where
  condition := fun node =>
    (node.type == "FRAME" || node.type == "LINE") &&
      (jsIncludes (toLowerStr node.name) "divider" || jsIncludes (toLowerStr node.name) "separator" ||
       jsIncludes (toLowerStr node.name) "line")
  mapper := fun node =>
    let orient : String :=
      match node.layout with
      | some l => if l.width > l.height then "horizontal" else "vertical"
      | none => "vertical"
    { component := "Divider"
      props := { orientation := some orient
                 text := node.text }
      htmlTag := "hr"
      className := "ncua-divider" }

/-- Dropdown rule: "dropdown" but not "select". -/
def dropdownRule : ComponentMappingRule where
  condition := fun node =>
    node.type == "FRAME" &&
      (jsIncludes (toLowerStr node.name) "dropdown" && !jsIncludes (toLowerStr node.name) "select")
  mapper := fun node =>
    { component := "Dropdown"
      props := { label := some (jsOrStr node.text "Dropdown")
                 items := some (extractDropdownItems node) }
      htmlTag := "div"
      className := "ncua-dropdown" }

/-- Empty state rule: empty/no-data/no-result. -/
def emptyStateRule : ComponentMappingRule where
  condition := fun node =>
    node.type == "FRAME" &&
      (jsIncludes (toLowerStr node.name) "empty" || jsIncludes (toLowerStr node.name) "no-data" ||
       jsIncludes (toLowerStr node.name) "no-result")
  mapper := fun node =>
    { component := "EmptyState"
      props := { title := some (jsOrStr (findChildText node "title") "No Data")
                 description := jsOrOptStr (findChildText node "description") node.text }
      htmlTag := "div"
      className := "ncua-empty-state" }

/-- Featured icon rule: icon/featured on a `FRAME` or `COMPONENT` node. -/
def featuredIconRule : ComponentMappingRule where
  condition := fun node =>
    (node.type == "FRAME" || node.type == "COMPONENT") &&
      (jsIncludes (toLowerStr node.name) "icon" || jsIncludes (toLowerStr node.name) "featured")
  mapper := fun node =>
    { component := "FeaturedIcon"
      props := { name := some "star"
                 size := some (inferSize node)
                 color := some (inferIconColor node)
                 theme := some "light" }
      htmlTag := "div"
      className := "ncua-featured-icon" }

/-- The ordered rule table `NCDS_COMPONENT_RULES`, in source order. -/
def NCDS_COMPONENT_RULES : List ComponentMappingRule :=
  [buttonRule, inputRule, checkboxRule, radioRule, selectRule, badgeRule,
   modalRule, tabRule, paginationRule, progressBarRule, notificationRule,
   verticalTabRule, progressCircleRule, spinnerRule, tagRule, toggleRule,
   tooltipRule, sliderRule, breadcrumbRule, dividerRule, dropdownRule,
   emptyStateRule, featuredIconRule]

/-- First-match evaluation of the rule table, as the `for` loop of
`mapToNcdsComponent` does. -/
def findRule : List ComponentMappingRule → SimplifiedNode → Option NcdsComponentMapping
  | [], _ => none
  | r :: rs, node => if r.condition node then some (r.mapper node) else findRule rs node

/-- `mapToNcdsComponent`: the first matching rule's mapping, or `none`. -/
def mapToNcdsComponent (node : SimplifiedNode) : Option NcdsComponentMapping :=
  findRule NCDS_COMPONENT_RULES node

/-- The fixed enumeration of supported component kinds. -/
def validComponents : List String :=
  ["Button", "InputBase", "Checkbox", "Radio", "Select", "Badge", "Modal",
   "HorizontalTab", "VerticalTab", "Pagination", "ProgressBar", "ProgressCircle",
   "Notification", "Spinner", "Tag", "Tooltip", "Slider", "Toggle",
   "BreadCrumb", "Divider", "Dropdown", "EmptyState", "FeaturedIcon"]

/-- `validateNcdsMapping`: membership of the mapping's component kind in
the fixed enumeration. -/
def validateNcdsMapping (mapping : NcdsComponentMapping) : Bool :=
  validComponents.contains mapping.component

/-- `NcdsHtmlGenerationOptions` after the constructor's merge with the
all-`true` defaults. -/
structure NcdsHtmlGenerationOptions where
  includeCSS : Bool := true
  includeComments : Bool := true
  phpNamingConvention : Bool := true
  generateNcdsImports : Bool := true
  wrapInContainer : Bool := true

/-- The generator instance's mutable accounting: the insertion-ordered
used-component set and the per-kind usage counter. -/
structure GenState where
  usedComponents : List String := []
  componentCounter : List (String × Nat) := []

/-- `Set.add` on an insertion-ordered set of strings. -/
def setAdd (s : List String) (x : String) : List String :=
  if s.contains x then s else s ++ [x]

/-- `record[k] || 0` on an insertion-ordered string-keyed record. -/
def counterGet (m : List (String × Nat)) (k : String) : Nat :=
  match m.find? (fun p => p.1 == k) with
  | some p => p.2
  | none => 0

/-- `record[k] = v`, updating in place or appending a fresh key. -/
def recordSet (m : List (String × Nat)) (k : String) (v : Nat) : List (String × Nat) :=
  if m.any (fun p => p.1 == k) then m.map (fun p => if p.1 == k then (k, v) else p)
  else m ++ [(k, v)]

/-- `record[k] = (record[k] || 0) + 1`. -/
def counterIncr (m : List (String × Nat)) (k : String) : List (String × Nat) :=
  recordSet m k (counterGet m k + 1)

/-- `toPhpNaming` helper: collapse runs of underscores to one. -/
def collapseUnderscoreRuns : List Char → List Char
  | [] => []
  | [c] => [c]
  | c1 :: c2 :: rest =>
    if c1 == '_' && c2 == '_' then collapseUnderscoreRuns (c2 :: rest)
    else c1 :: collapseUnderscoreRuns (c2 :: rest)

/-- `toPhpNaming` helper: drop one leading underscore (`/^_/`). -/
def dropOneLeadingUnderscore : List Char → List Char
  | '_' :: rest => rest
  | l => l

/-- `toPhpNaming`: lower-case, non-alphanumerics to `_`, collapse runs,
strip one leading and one trailing underscore. -/
def toPhpNaming (name : String) : String :=
  let lowered := (toLowerStr name).data
  let replaced := lowered.map (fun c => if ('a' ≤ c ∧ c ≤ 'z') ∨ ('0' ≤ c ∧ c ≤ '9') then c else '_')
  let collapsed := collapseUnderscoreRuns replaced
  let noLead := dropOneLeadingUnderscore collapsed
  ⟨(dropOneLeadingUnderscore noLead.reverse).reverse⟩

/-- `generateId`: the normalized name under the naming convention option,
the raw node id otherwise. -/
def generateId (opts : NcdsHtmlGenerationOptions) (node : SimplifiedNode) : String :=
  if opts.phpNamingConvention then toPhpNaming node.name else node.id

/-- Join the non-empty entries (`[...].filter(Boolean).join(sep)`). -/
def joinNonEmpty (sep : String) (parts : List String) : String :=
  String.intercalate sep (parts.filter (fun s => !(s == "")))

/-- `generateClassName`: base class plus optional size and hierarchy
modifier classes. -/
def generateClassName (mapping : NcdsComponentMapping) : String :=
  let baseClass := mapping.className
  let sizeClass :=
    if jsTruthyStr mapping.props.size then
      (let c := mapping.className; let s := mapping.props.size.getD ""; s!"{c}--{s}")
    else ""
  let themeClass :=
    if jsTruthyStr mapping.props.hierarchy then
      (let c := mapping.className; let h := mapping.props.hierarchy.getD ""; s!"{c}--{h}")
    else ""
  joinNonEmpty " " [baseClass, sizeClass, themeClass]

/-- `generateRegularClassName`: `figma-` plus the lower-cased node type. -/
def generateRegularClassName (node : SimplifiedNode) : String :=
  "figma-" ++ toLowerStr node.type

/-- `getHtmlTag`: the generic element per node type. -/
def getHtmlTag (node : SimplifiedNode) : String :=
  match node.type with
  | "TEXT" => "span"
  | "FRAME" => "div"
  | "GROUP" => "div"
  | "RECTANGLE" => "div"
  | "ELLIPSE" => "div"
  | "IMAGE" => "img"
  | _ => "div"

/-- `generateInlineStyles`: opacity (when present and not one) and border
radius (when truthy), joined by `"; "`. -/
def generateInlineStyles (node : SimplifiedNode) : String :=
  let styles : List String := []
  let styles :=
    match node.opacity with
    | some o => if o == 1 then styles else styles ++ [s!"opacity: {o}"]
    | none => styles
  let styles :=
    match node.borderRadius with
    | some br => if br == "" then styles else styles ++ [s!"border-radius: {br}"]
    | none => styles
  String.intercalate "; " styles

/-- The ubiquitous `${id ? ` id="${id}"` : ''}` attribute fragment. -/
def idAttrOf (id : String) : String :=
  if id == "" then "" else s!" id=\"{id}\""

/-- `Math.min(Math.max(props.progress || 0, 0), 100)`: the clamped
progress value both progress templates embed in their markup. -/
def clampProgress (p : Option Int) : Int :=
  min (max (jsOrInt p 0) 0) 100

/-- Print an optional string the way JavaScript interpolates it
(`undefined` when absent). -/
def jsShowOptStr : Option String → String
  | some s => s
  | none => "undefined"

/-- `generateButtonHtml`. -/
def generateButtonHtml (id className : String) (props : NcdsProps) (children : String) (node : SimplifiedNode) : String :=
  let ty := jsOrStr props.type "button"
  let size := jsOrStr props.size "xs"
  let hierarchy := jsOrStr props.hierarchy "primary"
  let disabled := if jsTruthyBool props.disabled then " disabled" else ""
  let buttonClass := s!"ncua-btn ncua-btn--{hierarchy} ncua-btn--{size}"
  let content0 := jsOrStr props.label (jsOrRaw children (jsOrStr node.text "Button"))
  let content1 := s!"<span class=\"ncua-btn__label\">{content0}</span>"
  let content2 :=
    if jsTruthyStr props.leadingIcon then
      (let li := props.leadingIcon.getD ""; s!"<i class=\"ncua-icon\">{li}</i>" ++ content1)
    else content1
  let content :=
    if jsTruthyStr props.trailingIcon then
      (let tri := props.trailingIcon.getD ""; content2 ++ s!"<i class=\"ncua-icon\">{tri}</i>")
    else content2
  let idAttr := idAttrOf id
  s!"<button{idAttr} class=\"{buttonClass}\" type=\"{ty}\"{disabled}>{content}</button>"

/-- `generateInputHtml`. -/
def generateInputHtml (id className : String) (props : NcdsProps) (node : SimplifiedNode) : String :=
  let ty := jsOrStr props.type "text"
  let size := jsOrStr props.size "xs"
  let placeholder := jsOrStr props.placeholder "텍스트를 입력하세요"
  let required := if jsTruthyBool props.required then " required" else ""
  let disabled := if jsTruthyBool props.disabled then " disabled" else ""
  let value :=
    match props.value with
    | some n => if n = 0 then "" else s!" value=\"{n}\""
    | none => ""
  let idAttr := idAttrOf id
  s!"\n<div class=\"ncua-input ncua-input--{size}\">\n" ++
  s!"  <div class=\"ncua-input__content\">\n" ++
  s!"    <div class=\"ncua-input__field ncua-input__field--{size}\">\n" ++
  s!"      <input{idAttr} placeholder=\"{placeholder}\" type=\"{ty}\"{value}{required}{disabled} />\n" ++
  "    </div>\n  </div>\n</div>"

/-- `generateCheckboxHtml`. -/
def generateCheckboxHtml (id className : String) (props : NcdsProps) (node : SimplifiedNode) : String :=
  let checked := if jsTruthyBool props.checked then " checked" else ""
  let disabled := if jsTruthyBool props.disabled then " disabled" else ""
  let size := jsOrStr props.size "xs"
  let label := jsOrStr props.label (jsOrStr node.text "Checkbox")
  let hasText := if label == "" then "" else " has-text"
  let isDisabled := if disabled == "" then "" else " is-disabled"
  let idAttr := idAttrOf id
  let labelSpan :=
    if label == "" then ""
    else s!"<span><span class=\"ncua-checkbox-field__text\">{label}</span></span>"
  s!"\n<label class=\"ncua-checkbox-field ncua-checkbox-field--{size}{hasText}\">\n" ++
  s!"  <span class=\"ncua-checkbox-input ncua-checkbox-input--{size}{isDisabled}\">\n" ++
  s!"    <input{idAttr} class=\"ncua-checkbox-field__input\" type=\"checkbox\"{checked}{disabled} />\n" ++
  "    <span class=\"ncua-checkbox-input__ico\"></span>\n" ++
  "  </span>\n" ++
  s!"  {labelSpan}\n" ++
  "</label>"

/-- `generateRadioHtml`. -/
def generateRadioHtml (id className : String) (props : NcdsProps) (node : SimplifiedNode) : String :=
  let checked := if jsTruthyBool props.checked then " checked" else ""
  let disabled := if jsTruthyBool props.disabled then " disabled" else ""
  let size := jsOrStr props.size "xs"
  let nm := jsOrStr props.name "radio-group"
  let label := jsOrStr props.label (jsOrStr node.text "Radio")
  let hasText := if label == "" then "" else " has-text"
  let isDisabled := if disabled == "" then "" else " is-disabled"
  let idAttr := idAttrOf id
  let labelSpan :=
    if label == "" then ""
    else s!"<span><span class=\"ncua-radio-field__text\">{label}</span></span>"
  s!"\n<label class=\"ncua-radio-field ncua-radio-field--{size}{hasText}\">\n" ++
  s!"  <span class=\"ncua-radio-input ncua-radio-input--{size}{isDisabled}\">\n" ++
  s!"    <input{idAttr} class=\"ncua-radio-field__input\" type=\"radio\" name=\"{nm}\"{checked}{disabled} />\n" ++
  "    <span class=\"ncua-radio-input__ico\"></span>\n" ++
  "  </span>\n" ++
  s!"  {labelSpan}\n" ++
  "</label>"

/-- `generateSelectHtml`: the placeholder option plus one option per
text-bearing child, valued by its 1-based position among all children. -/
def generateSelectHtml (id className : String) (props : NcdsProps) (node : SimplifiedNode) : String :=
  let disabled := if jsTruthyBool props.disabled then " disabled" else ""
  let required := if jsTruthyBool props.required then " required" else ""
  let size := jsOrStr props.size "md"
  let placeholder := jsOrStr props.placeholder "Select an option"
  let destructive := if jsTruthyBool props.destructive then " destructive" else ""
  let firstOption := s!"<option value=\"\" selected>{placeholder}</option>"
  let childOptions :=
    match node.children with
    | none => ""
    | some cs =>
      String.join (mapWithIdxFrom
        (fun i c =>
          if jsTruthyStr c.text then
            (let v := i + 1; let t := c.text.getD ""; s!"<option value=\"{v}\">{t}</option>")
          else "")
        0 cs)
  let options := firstOption ++ childOptions
  let idAttr := idAttrOf id
  s!"\n<span class=\"ncua-select{destructive}\">\n" ++
  s!"  <span class=\"ncua-select__content ncua-select--{size}\">\n" ++
  s!"    <select{idAttr} class=\"ncua-select__tag\"{disabled}{required}>\n" ++
  s!"      {options}\n" ++
  "    </select>\n" ++
  "  </span>\n" ++
  "</span>"

/-- `generateBadgeHtml`. -/
def generateBadgeHtml (id className : String) (props : NcdsProps) (node : SimplifiedNode) : String :=
  let label := jsOrStr props.label (jsOrStr node.text "Badge")
  let ty := jsOrStr props.type "filled"
  let color := jsOrStr props.color "gray"
  let size := jsOrStr props.size "md"
  let idAttr := idAttrOf id
  s!"\n<span{idAttr} class=\"ncua-badge ncua-badge--{ty} ncua-badge--{color} ncua-badge--{size}\">\n" ++
  s!"  <span class=\"ncua-badge__label\">{label}</span>\n" ++
  "</span>"

/-- `generateModalHtml`. -/
def generateModalHtml (id className : String) (props : NcdsProps) (children : String) (node : SimplifiedNode) : String :=
  let title := jsOrStr props.title "Modal Title"
  let subtitle := jsOrStr props.subtitle ""
  let content := jsOrRaw children (jsOrStr node.text "Modal content")
  let size := jsOrStr props.size "md"
  let idAttr := idAttrOf id
  let subtitleDiv :=
    if subtitle == "" then ""
    else s!"<div class=\"ncua-modal__title-subtitle\">{subtitle}</div>"
  s!"\n<div{idAttr} class=\"ncua-modal-backdrop\">\n" ++
  s!"  <div class=\"ncua-modal ncua-modal--{size}\">\n" ++
  "    <div class=\"ncua-modal__header ncua-modal__header--left ncua-modal__header--close-button\">\n" ++
  "      <div class=\"ncua-modal__title\">\n" ++
  s!"        <div class=\"ncua-modal__title-text\">{title}</div>\n" ++
  s!"        {subtitleDiv}\n" ++
  "      </div>\n" ++
  "      <button class=\"ncua-modal__close-button\" type=\"button\">&times;</button>\n" ++
  "    </div>\n" ++
  "    <div class=\"ncua-modal__header-divider\"></div>\n" ++
  "    <div class=\"ncua-modal__content\">\n" ++
  s!"      {content}\n" ++
  "    </div>\n" ++
  "    <div class=\"ncua-modal__actions-divider\"></div>\n" ++
  "    <div class=\"ncua-modal__actions-wrapper\">\n" ++
  "      <div class=\"ncua-modal__actions ncua-modal__actions--horizontal ncua-modal__actions--right\">\n" ++
  "        <button class=\"ncua-btn ncua-btn--secondary-gray ncua-btn--sm\" type=\"button\">\n" ++
  "          <span class=\"ncua-btn__label\">취소</span>\n" ++
  "        </button>\n" ++
  "        <button class=\"ncua-btn ncua-btn--primary ncua-btn--sm\" type=\"button\">\n" ++
  "          <span class=\"ncua-btn__label\">확인</span>\n" ++
  "        </button>\n" ++
  "      </div>\n" ++
  "    </div>\n" ++
  "  </div>\n" ++
  "</div>"

/-- `generateTabHtml` (horizontal tabs). -/
def generateTabHtml (id className : String) (props : NcdsProps) (node : SimplifiedNode) : String :=
  let tabs := props.tabs.getD [{ label := "탭 1", isActive := true }, { label := "탭 2", isActive := false }]
  let ty := jsOrStr props.type "button-primary"
  let size := jsOrStr props.size "sm"
  let fullWidth := jsTruthyBool props.fullWidth
  let tabButtons := String.join (mapWithIdxFrom
    (fun index tab =>
      let isActive := if tab.isActive then " is-active" else ""
      let lbl := tab.label
      "\n        <div class=\"swiper-slide\">\n" ++
      s!"          <button class=\"ncua-tab-button ncua-tab-button--{ty} ncua-tab-button--{size}{isActive}\" data-tab=\"{index}\">\n" ++
      s!"            <span class=\"ncua-tab-button__label\">{lbl}</span>\n" ++
      "          </button>\n" ++
      "        </div>")
    0 tabs)
  let fullWidthClass := if fullWidth then " ncua-horizontal-tab--fullWidth" else ""
  let idAttr := idAttrOf id
  s!"\n<div{idAttr} class=\"ncua-horizontal-tab ncua-horizontal-tab--{ty}{fullWidthClass}\">\n" ++
  "  <div class=\"swiper\" style=\"overflow: visible;\">\n" ++
  "    <div class=\"swiper-wrapper\">\n" ++
  s!"      {tabButtons}\n" ++
  "    </div>\n" ++
  "  </div>\n" ++
  "</div>"

/-- `generateNotificationHtml`. -/
def generateNotificationHtml (id className : String) (props : NcdsProps) (node : SimplifiedNode) : String :=
  let title := jsOrStr props.title "Notification"
  let description := jsOrStr props.description (jsOrStr node.text "")
  let color := jsOrStr props.color "neutral"
  let idAttr := idAttrOf id
  let descSpan :=
    if description == "" then ""
    else s!"<span class=\"ncua-floating-notification__supporting-text\">{description}</span>"
  s!"\n<div{idAttr} class=\"ncua-floating-notification ncua-floating-notification--{color}\" role=\"alert\">\n" ++
  "  <div class=\"ncua-floating-notification__content\">\n" ++
  "    <div class=\"ncua-floating-notification__container\">\n" ++
  "      <div class=\"ncua-floating-notification__text-container\">\n" ++
  "        <div class=\"ncua-floating-notification__title-wrapper\">\n" ++
  s!"          <span class=\"ncua-floating-notification__title\">{title}</span>\n" ++
  "        </div>\n" ++
  s!"        {descSpan}\n" ++
  "      </div>\n" ++
  "    </div>\n" ++
  "  </div>\n" ++
  "  <button class=\"ncua-floating-notification__close-button\" type=\"button\">&times;</button>\n" ++
  "</div>"

/-- `generateProgressBarHtml`: the embedded progress value is
`clampProgress props.progress`. -/
def generateProgressBarHtml (id className : String) (props : NcdsProps) (node : SimplifiedNode) : String :=
  let progress := clampProgress props.progress
  let label := jsOrStr props.label "none"
  let showValue := jsTruthyBool props.showValue
  let idAttr := idAttrOf id
  let rightLabel :=
    if showValue && label == "right" then
      s!"<span class=\"ncua-progress-bar__label ncua-progress-bar__label-right\">{progress}%</span>"
    else ""
  let bottomLabel :=
    if showValue && label == "bottom" then
      s!"<span class=\"ncua-progress-bar__label ncua-progress-bar__label-bottom\">{progress}%</span>"
    else ""
  s!"\n<div{idAttr} class=\"ncua-progress-bar ncua-progress-bar-{label}\">\n" ++
  "  <div class=\"ncua-progress-bar__content\">\n" ++
  "    <div class=\"ncua-progress-bar__bar\">\n" ++
  s!"      <div class=\"ncua-progress-bar__fill\" style=\"width: {progress}%\" aria-valuenow=\"{progress}\" aria-valuemin=\"0\" aria-valuemax=\"100\"></div>\n" ++
  "    </div>\n" ++
  s!"    {rightLabel}\n" ++
  "  </div>\n" ++
  s!"  {bottomLabel}\n" ++
  "</div>"

/-- `generatePaginationHtml`: a page-number window of width five around
the current page, with jump buttons when more than five pages exist. -/
def generatePaginationHtml (id className : String) (props : NcdsProps) (node : SimplifiedNode) : String :=
  let currentPage := jsOrInt props.currentPage 1
  let totalPages := jsOrInt props.totalPages 10
  let breakPoint := jsOrStr props.breakPoint "pc"
  let showJumpButtons := totalPages > 5
  let start := max 1 (currentPage - 2)
  let stop := min totalPages (start + 4)
  let pages := (List.range (stop - start + 1).toNat).map
    (fun k =>
      let i := start + (k : Int)
      let isActive := if i == currentPage then " is-current" else ""
      "\n        <li class=\"ncua-pagination__item\">\n" ++
      s!"          <button class=\"ncua-pagination__page-num{isActive}\">{i}</button>\n" ++
      "        </li>")
  let firstDisabled := if currentPage == 1 then "disabled" else ""
  let lastDisabled := if currentPage == totalPages then "disabled" else ""
  let idAttr := idAttrOf id
  let headButtons :=
    if showJumpButtons then
      "\n" ++
      s!"    <button class=\"ncua-pagination__nav-btn ncua-pagination__nav-btn--first\" {firstDisabled}>\n" ++
      "      <span class=\"ncua-pagination__nav-btn-text\">처음</span>\n" ++
      "    </button>\n" ++
      s!"    <button class=\"ncua-pagination__nav-btn ncua-pagination__nav-btn--prev\" {firstDisabled}>\n" ++
      "      <span class=\"ncua-pagination__nav-btn-text\">이전</span>\n" ++
      "    </button>"
    else ""
  let tailButtons :=
    if showJumpButtons then
      "\n" ++
      s!"    <button class=\"ncua-pagination__nav-btn ncua-pagination__nav-btn--next\" {lastDisabled}>\n" ++
      "      <span class=\"ncua-pagination__nav-btn-text\">다음</span>\n" ++
      "    </button>\n" ++
      s!"    <button class=\"ncua-pagination__nav-btn ncua-pagination__nav-btn--last\" {lastDisabled}>\n" ++
      "      <span class=\"ncua-pagination__nav-btn-text\">마지막</span>\n" ++
      "    </button>"
    else ""
  let pageList := String.join pages
  s!"\n<nav{idAttr} class=\"ncua-pagination ncua-pagination--{breakPoint}\">\n" ++
  s!"  {headButtons}\n" ++
  "  <ul class=\"ncua-pagination__list\">\n" ++
  s!"    {pageList}\n" ++
  "  </ul>\n" ++
  "  <p class=\"ncua-pagination__page-info\">\n" ++
  s!"    <em class=\"ncua-pagination__current-num\">{currentPage}</em> / {totalPages}\n" ++
  "  </p>\n" ++
  s!"  {tailButtons}\n" ++
  "</nav>"

/-- `generateVerticalTabHtml`. -/
def generateVerticalTabHtml (id className : String) (props : NcdsProps) (node : SimplifiedNode) : String :=
  let tabs := props.tabs.getD
    [{ id := some "tab1", label := "탭 1", isActive := true },
     { id := some "tab2", label := "탭 2", isActive := false }]
  let ty := jsOrStr props.type "button-primary"
  let tabButtons := String.join (tabs.map
    (fun tab =>
      let isActive := if tab.isActive then " is-active" else ""
      let tabId := jsShowOptStr tab.id
      let lbl := tab.label
      "\n" ++
      s!"        <button class=\"ncua-tab-button ncua-tab-button--{ty} ncua-tab-button--sm{isActive}\" data-tab=\"{tabId}\">\n" ++
      s!"          <span class=\"ncua-tab-button__label\">{lbl}</span>\n" ++
      "        </button>"))
  let idAttr := idAttrOf id
  s!"\n<div{idAttr} class=\"ncua-vertical-tab ncua-vertical-tab--{ty}\">\n" ++
  "  <div class=\"ncua-vertical-tab__list\">\n" ++
  s!"    {tabButtons}\n" ++
  "  </div>\n" ++
  "</div>"

/-- `generateProgressCircleHtml`: the embedded progress value is
`clampProgress props.progress`; the stroke geometry follows it. -/
def generateProgressCircleHtml (id className : String) (props : NcdsProps) (node : SimplifiedNode) : String :=
  let progress := clampProgress props.progress
  let size := jsOrStr props.size "md"
  let strokeWidth := jsOrInt props.strokeWidth 4
  let radius := 50 - strokeWidth
  let circumference : Float := 2 * 3.141592653589793 * Float.ofInt radius
  let strokeDashoffset : Float := circumference - (Float.ofInt progress / 100) * circumference
  let idAttr := idAttrOf id
  s!"\n<div{idAttr} class=\"ncua-progress-circle ncua-progress-circle--{size}\">\n" ++
  "  <svg class=\"ncua-progress-circle__svg\" viewBox=\"0 0 100 100\">\n" ++
  s!"    <circle class=\"ncua-progress-circle__bg\" cx=\"50\" cy=\"50\" r=\"{radius}\" stroke-width=\"{strokeWidth}\"></circle>\n" ++
  s!"    <circle class=\"ncua-progress-circle__progress\" cx=\"50\" cy=\"50\" r=\"{radius}\" stroke-width=\"{strokeWidth}\" \n" ++
  s!"            style=\"stroke-dasharray: {circumference}; stroke-dashoffset: {strokeDashoffset};\"></circle>\n" ++
  "  </svg>\n" ++
  s!"  <div class=\"ncua-progress-circle__text\">{progress}%</div>\n" ++
  "</div>"

/-- `generateSpinnerHtml`. -/
def generateSpinnerHtml (id className : String) (props : NcdsProps) (node : SimplifiedNode) : String :=
  let size := jsOrStr props.size "md"
  let text := jsOrStr props.text (jsOrStr node.text "")
  let backdrop := jsTruthyBool props.backdrop
  let idAttr := idAttrOf id
  let textP := if text == "" then "" else s!"<p class=\"ncua-spinner__text\">{text}</p>"
  let spinnerContent :=
    s!"\n<div{idAttr} class=\"ncua-spinner ncua-spinner--{size}\">\n" ++
    "  <div class=\"ncua-spinner__icon\"></div>\n" ++
    s!"  {textP}\n" ++
    "</div>"
  if backdrop then
    "\n<div class=\"ncua-spinner-backdrop\">\n" ++
    s!"  {spinnerContent}\n" ++
    "</div>"
  else spinnerContent

/-- `generateTagHtml`. -/
def generateTagHtml (id className : String) (props : NcdsProps) (node : SimplifiedNode) : String :=
  let label := jsOrStr props.label (jsOrStr node.text "Tag")
  let color := jsOrStr props.color "gray"
  let size := jsOrStr props.size "md"
  let removable := jsTruthyBool props.removable
  let idAttr := idAttrOf id
  let removeButton :=
    if removable then "<button class=\"ncua-tag__remove\" type=\"button\">&times;</button>" else ""
  s!"\n<span{idAttr} class=\"ncua-tag ncua-tag--{color} ncua-tag--{size}\">\n" ++
  s!"  <span class=\"ncua-tag__label\">{label}</span>\n" ++
  s!"  {removeButton}\n" ++
  "</span>"

/-- `generateTooltipHtml`. -/
def generateTooltipHtml (id className : String) (props : NcdsProps) (children : String) (node : SimplifiedNode) : String :=
  let title := jsOrStr props.title "Tooltip"
  let content := jsOrStr props.content (jsOrRaw children (jsOrStr node.text ""))
  let position := jsOrStr props.position "top"
  let tooltipType := jsOrStr props.tooltipType "dark"
  let idAttr := idAttrOf id
  let titleSpan := if title == "" then "" else s!"<span class=\"ncua-tooltip__title\">{title}</span>"
  let contentSpan := if content == "" then "" else s!"<span class=\"ncua-tooltip__content\">{content}</span>"
  s!"\n<span{idAttr} class=\"ncua-tooltip ncua-tooltip--{position}\">\n" ++
  "  <span class=\"ncua-tooltip__trigger\">?</span>\n" ++
  s!"  <span class=\"ncua-tooltip__bg ncua-tooltip__bg--{tooltipType} ncua-tooltip__bg--{position}\">\n" ++
  s!"    {titleSpan}\n" ++
  s!"    {contentSpan}\n" ++
  "  </span>\n" ++
  "</span>"

/-- `generateSliderHtml`. -/
def generateSliderHtml (id className : String) (props : NcdsProps) (node : SimplifiedNode) : String :=
  let value := jsOrInt props.value 50
  let minVal := jsOrInt props.min 0
  let maxVal := jsOrInt props.max 100
  let size := jsOrStr props.size "md"
  let idAttr := idAttrOf id
  s!"\n<div{idAttr} class=\"ncua-slider ncua-slider--{size}\">\n" ++
  s!"  <input class=\"ncua-slider__input\" type=\"range\" min=\"{minVal}\" max=\"{maxVal}\" value=\"{value}\" />\n" ++
  "</div>"

/-- `generateToggleHtml`. -/
def generateToggleHtml (id className : String) (props : NcdsProps) (node : SimplifiedNode) : String :=
  let checked := jsTruthyBool props.checked
  let disabled := jsTruthyBool props.disabled
  let size := jsOrStr props.size "md"
  let text := jsOrStr props.text (jsOrStr node.text "")
  let idAttr := idAttrOf id
  let isDisabled := if disabled then " is-disabled" else ""
  let checkedAttr := if checked then " checked" else ""
  let disabledAttr := if disabled then " disabled" else ""
  let textSpan := if text == "" then "" else s!"<span class=\"ncua-toggle__text\">{text}</span>"
  s!"\n<label class=\"ncua-toggle ncua-toggle--{size}{isDisabled}\">\n" ++
  s!"  <input{idAttr} class=\"ncua-toggle__input\" type=\"checkbox\"{checkedAttr}{disabledAttr} />\n" ++
  "  <span class=\"ncua-toggle__switch\"></span>\n" ++
  s!"  {textSpan}\n" ++
  "</label>"

/-- `generateBreadcrumbHtml`. -/
def generateBreadcrumbHtml (id className : String) (props : NcdsProps) (node : SimplifiedNode) : String :=
  let items := props.items.getD
    [{ label := "Home", href := some "/" }, { label := "Page", href := some "/page" }]
  let count := items.length
  let breadcrumbItems := String.join (mapWithIdxFrom
    (fun index item =>
      let isLast := index == count - 1
      let lbl := item.label
      let entry :=
        if isLast then s!"<span class=\"ncua-breadcrumb__current\">{lbl}</span>"
        else (let href := jsOrStr item.href "#"; s!"<a class=\"ncua-breadcrumb__link\" href=\"{href}\">{lbl}</a>")
      "\n        <li class=\"ncua-breadcrumb__item\">\n" ++
      s!"          {entry}\n" ++
      "        </li>")
    0 items)
  let idAttr := idAttrOf id
  s!"\n<nav{idAttr} class=\"ncua-breadcrumb\">\n" ++
  "  <ol class=\"ncua-breadcrumb__list\">\n" ++
  s!"    {breadcrumbItems}\n" ++
  "  </ol>\n" ++
  "</nav>"

/-- `generateDividerHtml`. -/
def generateDividerHtml (id className : String) (props : NcdsProps) (node : SimplifiedNode) : String :=
  let orientation := jsOrStr props.orientation "horizontal"
  let text := jsOrStr props.text (jsOrStr node.text "")
  let idAttr := idAttrOf id
  if text == "" then
    s!"<hr{idAttr} class=\"ncua-divider ncua-divider--{orientation}\" />"
  else
    s!"\n<div{idAttr} class=\"ncua-divider ncua-divider--{orientation} ncua-divider--text\">\n" ++
    s!"  <span class=\"ncua-divider__text\">{text}</span>\n" ++
    "</div>"

/-- `generateDropdownHtml`. -/
def generateDropdownHtml (id className : String) (props : NcdsProps) (children : String) (node : SimplifiedNode) : String :=
  let label := jsOrStr props.label "Dropdown"
  let items := props.items.getD
    [{ label := "옵션 1", value := some "1" }, { label := "옵션 2", value := some "2" }]
  let dropdownItems := String.join (items.map
    (fun item =>
      let v := jsShowOptStr item.value
      let lbl := item.label
      "<li class=\"ncua-dropdown__item\">\n" ++
      s!"        <button class=\"ncua-dropdown__button\" type=\"button\" data-value=\"{v}\">{lbl}</button>\n" ++
      "      </li>"))
  let idAttr := idAttrOf id
  s!"\n<div{idAttr} class=\"ncua-dropdown\">\n" ++
  s!"  <button class=\"ncua-dropdown__trigger\" type=\"button\">{label}</button>\n" ++
  "  <ul class=\"ncua-dropdown__menu\">\n" ++
  s!"    {dropdownItems}\n" ++
  "  </ul>\n" ++
  "</div>"

/-- `generateEmptyStateHtml`. -/
def generateEmptyStateHtml (id className : String) (props : NcdsProps) (children : String) (node : SimplifiedNode) : String :=
  let title := jsOrStr props.title "Empty State"
  let description := jsOrStr props.description (jsOrRaw children (jsOrStr node.text ""))
  let idAttr := idAttrOf id
  let descP := if description == "" then "" else s!"<p class=\"ncua-empty-state__description\">{description}</p>"
  s!"\n<div{idAttr} class=\"ncua-empty-state\">\n" ++
  "  <div class=\"ncua-empty-state__icon\">\n" ++
  "    <svg class=\"ncua-featured-icon ncua-featured-icon--xl ncua-featured-icon--gray-modern\" viewBox=\"0 0 24 24\">\n" ++
  "      <path d=\"M3 3h18v18H3V3z\" stroke=\"currentColor\" fill=\"none\"/>\n" ++
  "    </svg>\n" ++
  "  </div>\n" ++
  "  <div class=\"ncua-empty-state__content\">\n" ++
  s!"    <h3 class=\"ncua-empty-state__title\">{title}</h3>\n" ++
  s!"    {descP}\n" ++
  "  </div>\n" ++
  "</div>"

/-- `generateFeaturedIconHtml`. -/
def generateFeaturedIconHtml (id className : String) (props : NcdsProps) (node : SimplifiedNode) : String :=
  let size := jsOrStr props.size "md"
  let color := jsOrStr props.color "primary"
  let theme := jsOrStr props.theme "light"
  let idAttr := idAttrOf id
  s!"\n<div{idAttr} class=\"ncua-featured-icon ncua-featured-icon--{size} ncua-featured-icon--{color}-{theme}\">\n" ++
  "  <svg viewBox=\"0 0 24 24\">\n" ++
  "    <path d=\"M12 2l3.09 6.26L22 9.27l-5 4.87 1.18 6.88L12 17.77l-6.18 3.25L7 14.14 2 9.27l6.91-1.01L12 2z\" fill=\"currentColor\"/>\n" ++
  "  </svg>\n" ++
  "</div>"

/-- `generateGenericComponentHtml`: the defensive default branch. -/
def generateGenericComponentHtml (mapping : NcdsComponentMapping) (id className : String) (props : NcdsProps) (children : String) : String :=
  let tag := jsOrRaw mapping.htmlTag "div"
  s!"<{tag} id=\"{id}\" class=\"{className}\">{children}</{tag}>"

/-- The `switch (mapping.component)` dispatch of
`generateNcdsComponentHtml`. -/
def dispatchComponentHtml (mapping : NcdsComponentMapping) (id className : String) (props : NcdsProps) (children : String) (node : SimplifiedNode) : String :=
  match mapping.component with
  | "Button" => generateButtonHtml id className props children node
  | "InputBase" => generateInputHtml id className props node
  | "Checkbox" => generateCheckboxHtml id className props node
  | "Radio" => generateRadioHtml id className props node
  | "Select" => generateSelectHtml id className props node
  | "Badge" => generateBadgeHtml id className props node
  | "Modal" => generateModalHtml id className props children node
  | "HorizontalTab" => generateTabHtml id className props node
  | "Notification" => generateNotificationHtml id className props node
  | "ProgressBar" => generateProgressBarHtml id className props node
  | "Pagination" => generatePaginationHtml id className props node
  | "VerticalTab" => generateVerticalTabHtml id className props node
  | "ProgressCircle" => generateProgressCircleHtml id className props node
  | "Spinner" => generateSpinnerHtml id className props node
  | "Tag" => generateTagHtml id className props node
  | "Tooltip" => generateTooltipHtml id className props children node
  | "Slider" => generateSliderHtml id className props node
  | "Toggle" => generateToggleHtml id className props node
  | "BreadCrumb" => generateBreadcrumbHtml id className props node
  | "Divider" => generateDividerHtml id className props node
  | "Dropdown" => generateDropdownHtml id className props children node
  | "EmptyState" => generateEmptyStateHtml id className props children node
  | "FeaturedIcon" => generateFeaturedIconHtml id className props node
  | _ => generateGenericComponentHtml mapping id className props children

mutual

/-- `generateNodeHtml`: classify the node; a validated mapping is
accounted (used-set, counter) and dispatched to its template with the
already-rendered children; otherwise the generic structural markup is
emitted. -/
def generateNodeHtml (opts : NcdsHtmlGenerationOptions) : SimplifiedNode → GenState → String × GenState
  | node@(SimplifiedNode.mk _ _ _ ntext nchildren _ _ _), st =>
    match Option.filter (fun m => validateNcdsMapping m) (mapToNcdsComponent node) with
    | some mapping =>
      let st1 : GenState :=
        { usedComponents := setAdd st.usedComponents mapping.component
          componentCounter := counterIncr st.componentCounter mapping.component }
      let id := generateId opts node
      let className := generateClassName mapping
      let props := mapping.props
      let (children, st2) := generateChildrenAux opts nchildren st1
      let comment :=
        if opts.includeComments then
          (let comp := mapping.component; let nm := node.name; s!"<!-- NCDS {comp}: {nm} -->\n")
        else ""
      (comment ++ dispatchComponentHtml mapping id className props children node, st2)
    | none =>
      let tag := getHtmlTag node
      let id := generateId opts node
      let className := generateRegularClassName node
      let styles := generateInlineStyles node
      let (children, st1) := generateChildrenAux opts nchildren st
      let idAttr := if id == "" then "" else s!"id=\"{id}\""
      let classAttr := if className == "" then "" else s!"class=\"{className}\""
      let styleAttr := if styles == "" then "" else s!"style=\"{styles}\""
      let attributes := joinNonEmpty " " [idAttr, classAttr, styleAttr]
      let content0 := if jsTruthyStr ntext then ntext.getD "" else ""
      let content := if children == "" then content0 else content0 ++ children
      let attrsPart := if attributes == "" then "" else " " ++ attributes
      (s!"<{tag}{attrsPart}>" ++ content ++ s!"</{tag}>", st1)

/-- `generateChildren` on the children field: empty markup when absent or
empty, otherwise the joined, blank-filtered child fragments. -/
def generateChildrenAux (opts : NcdsHtmlGenerationOptions) : Option (List SimplifiedNode) → GenState → String × GenState
  | none, st => ("", st)
  | some cs, st =>
    if cs.length = 0 then ("", st)
    else
      let (hs, st') := generateNodeListHtml opts cs st
      (String.intercalate "\n" (hs.filter (fun h => !(jsTrim h == ""))), st')

/-- Left-to-right rendering of a sibling list, threading the usage
state (`nodes.map(node => this.generateNodeHtml(node))`). -/
def generateNodeListHtml (opts : NcdsHtmlGenerationOptions) : List SimplifiedNode → GenState → List String × GenState
  | [], st => ([], st)
  | n :: ns, st =>
    let (h, st1) := generateNodeHtml opts n st
    let (hs, st2) := generateNodeListHtml opts ns st1
    (h :: hs, st2)

end

/-- `generateChildren` as a standalone entry point. -/
def generateChildren (opts : NcdsHtmlGenerationOptions) (node : SimplifiedNode) (st : GenState) : String × GenState :=
  generateChildrenAux opts node.children st

/-- `generateNodesHtml`: map, drop blank fragments, join by newline. -/
def generateNodesHtml (opts : NcdsHtmlGenerationOptions) (nodes : List SimplifiedNode) (st : GenState) : String × GenState :=
  let (hs, st') := generateNodeListHtml opts nodes st
  (String.intercalate "\n" (hs.filter (fun h => !(jsTrim h == ""))), st')

/-- `wrapInContainer`. -/
def wrapInContainer (html : String) : String :=
  "<div class=\"figma-container\">\n" ++ html ++ "\n</div>"

/-- `generateNcdsCss`: the fixed style text. -/
def generateNcdsCss : String :=
  "\n/* NCDS UI Admin Essential Resources */\n" ++
  "<link rel=\"stylesheet\" href=\"https://fe-sdk.cdn-nhncommerce.com/@ncds/ui-admin/1.0/main.min.css\" />\n" ++
  "<script type=\"text/javascript\" src=\"https://fe-sdk.cdn-nhncommerce.com/@ncds/ui-admin/1.0/main.min.js\"></script>\n" ++
  "\n/* NCDS UI Admin CSS Import */\n" ++
  "@import \x27@ncds/ui-admin/dist/ui-admin/assets/styles/style.css\x27;\n" ++
  "\n/* Custom styles for generated components */\n" ++
  ".figma-container \x7b\n  padding: 20px;\n  max-width: 1200px;\n  margin: 0 auto;\n\x7d\n" ++
  "\n/* Additional styles for better component display */\n" ++
  ".ncua-modal-backdrop \x7b\n  position: fixed;\n  top: 0;\n  left: 0;\n  right: 0;\n  bottom: 0;\n" ++
  "  background-color: rgba(0, 0, 0, 0.5);\n  display: flex;\n  align-items: center;\n" ++
  "  justify-content: center;\n  z-index: 1000;\n\x7d\n" ++
  "\n.swiper \x7b\n  overflow: visible !important;\n\x7d\n" ++
  "\n.swiper-wrapper \x7b\n  display: flex;\n  gap: 8px;\n\x7d\n" ++
  "\n.swiper-slide \x7b\n  width: auto;\n\x7d\n    "

/-- `SimplifiedDesign` as far as the generator reads it. -/
structure SimplifiedDesign where
  name : String := ""
  nodes : List SimplifiedNode := []

/-- `GeneratedNcdsHtml`. -/
structure GeneratedNcdsHtml where
  html : String
  css : Option String := none
  imports : Option (List String) := none
  componentUsage : List (String × Nat) := []

/-- `generateFromDesign`: clears the used-component set and the usage
counter, renders all top-level nodes, then assembles markup, optional
imports and optional style text.  The generator instance's incoming state
`st` is exactly what the entry-point reset discards; the outgoing state is
the accounting left by this call. -/
def generateFromDesign (opts : NcdsHtmlGenerationOptions) (st : GenState) (design : SimplifiedDesign) : GeneratedNcdsHtml × GenState :=
  let st0 : GenState := { usedComponents := [], componentCounter := [] }
  let (html, st1) := generateNodesHtml opts design.nodes st0
  let wrappedHtml := if opts.wrapInContainer then wrapInContainer html else html
  let imports := if opts.generateNcdsImports then some st1.usedComponents else none
  let css := if opts.includeCSS then some generateNcdsCss else none
  ({ html := wrappedHtml, css := css, imports := imports, componentUsage := st1.componentCounter }, st1)

/-! ## General lemmas about the embedded primitives -/

theorem stringDataAppend (a b : String) : (a ++ b).data = a.data ++ b.data := by
  cases a; cases b; rfl

theorem concatNeEmpty (a b : String) (h : a ≠ "") : a ++ b ≠ "" := by
  intro hab
  apply h
  have hd := congrArg String.data hab
  rw [stringDataAppend] at hd
  have hnil : a.data = [] := (List.append_eq_nil.mp hd).1
  cases a
  simp only at hnil
  subst hnil
  rfl

theorem emptyAppendStr (s : String) : "" ++ s = s := by
  cases s; rfl

theorem findRuleConsEq (r : ComponentMappingRule) (rs : List ComponentMappingRule)
    (node : SimplifiedNode) :
    findRule (r :: rs) node = if r.condition node then some (r.mapper node) else findRule rs node :=
  rfl

theorem badgeCondOfTagCond (node : SimplifiedNode)
    (h : tagRule.condition node = true) : badgeRule.condition node = true := by
  dsimp only [tagRule] at h
  dsimp only [badgeRule]
  simp only [Bool.and_eq_true] at h
  simp only [Bool.and_eq_true]
  simp only [Bool.or_eq_true] at h
  simp only [Bool.or_eq_true]
  exact ⟨h.1, by tauto⟩

theorem mapWithIdxFromLength (f : Nat → α → β) (i : Nat) (l : List α) :
    (mapWithIdxFrom f i l).length = l.length := by
  induction l generalizing i with
  | nil => rfl
  | cons a as ih => simp only [mapWithIdxFrom, List.length_cons, ih]

theorem mapWithIdxFromGetElem (f : Nat → α → β) (i j : Nat) (l : List α) :
    (mapWithIdxFrom f i l)[j]? = (l[j]?).map (f (i + j)) := by
  induction l generalizing i j with
  | nil => simp [mapWithIdxFrom]
  | cons a as ih =>
    cases j with
    | zero => simp [mapWithIdxFrom]
    | succ j' =>
      simp only [mapWithIdxFrom, List.getElem?_cons_succ, ih (i + 1) j']
      rw [show i + 1 + j' = i + (j' + 1) by omega]

/-- Every widget template, the generic default included, emits non-empty
markup: each one opens with a fixed non-empty literal chunk. -/
theorem dispatchComponentHtmlNeEmpty (mapping : NcdsComponentMapping) (id className : String)
    (props : NcdsProps) (children : String) (node : SimplifiedNode) :
    dispatchComponentHtml mapping id className props children node ≠ "" := by
  unfold dispatchComponentHtml
  split
  all_goals simp only [generateButtonHtml, generateInputHtml, generateCheckboxHtml,
    generateRadioHtml, generateSelectHtml, generateBadgeHtml, generateModalHtml,
    generateTabHtml, generateNotificationHtml, generateProgressBarHtml,
    generatePaginationHtml, generateVerticalTabHtml, generateProgressCircleHtml,
    generateSpinnerHtml, generateTagHtml, generateTooltipHtml, generateSliderHtml,
    generateToggleHtml, generateBreadcrumbHtml, generateDividerHtml,
    generateDropdownHtml, generateEmptyStateHtml, generateFeaturedIconHtml,
    generateGenericComponentHtml]
  all_goals repeat' first | decide | apply concatNeEmpty | split

/-! ## Claim theorems -/

/-- The node exhibiting C1's failure: its name contains the token `2xl`
and it carries a layout box, so the size scan runs. -/
def c1FailingNode : SimplifiedNode :=
  ⟨"c1", "Button 2xl", "FRAME", none, none, none, none, some ⟨100, 40⟩⟩

/-- C1: the claim that a name containing "2xl" infers size "2xl" (and not
"xl") is FALSE on the code.  The `xl` check precedes the `2xl` check and
`"2xl"` contains `"xl"` as a substring, so `inferSize` returns `"xl"`;
the `2xl` branch of the source is unreachable. -/
theorem c1_inferSize_2xl_infers_xl_not_2xl :
    inferSize c1FailingNode = "xl" ∧ inferSize c1FailingNode ≠ "2xl" := by
  constructor
  · rfl
  · decide

/-- C2: every node of type `INSTANCE` classifies as a Button mapping,
regardless of its name — the Button rule is first and its condition's
first disjunct is the type test. -/
theorem c2_instance_always_button (node : SimplifiedNode) (h : node.type = "INSTANCE") :
    (mapToNcdsComponent node).map NcdsComponentMapping.component = some "Button" := by
  have hc : buttonRule.condition node = true := by
    dsimp only [buttonRule]
    rw [h]
    simp
  unfold mapToNcdsComponent NCDS_COMPONENT_RULES
  rw [findRuleConsEq, if_pos hc]
  rfl

def c2WitnessNode : SimplifiedNode := ⟨"w2", "Any Name", "INSTANCE", none, none, none, none, none⟩

theorem c2_instance_always_button_witness :
    (mapToNcdsComponent c2WitnessNode).map NcdsComponentMapping.component = some "Button" :=
  c2_instance_always_button c2WitnessNode rfl

/-- C3: classification never returns a Tag mapping.  Any node satisfying
the Tag rule's predicate already satisfies the earlier Badge rule's
predicate (its name contains "tag"), so first-match evaluation returns at
the Badge rule or earlier; every other rule's mapping has a kind other
than Tag. -/
theorem c3_mapping_never_tag (node : SimplifiedNode) :
    (mapToNcdsComponent node).map NcdsComponentMapping.component ≠ some "Tag" := by
  intro hcontra
  unfold mapToNcdsComponent NCDS_COMPONENT_RULES at hcontra
  rw [findRuleConsEq] at hcontra
  by_cases h0 : buttonRule.condition node = true
  · rw [if_pos h0] at hcontra; simp [buttonRule] at hcontra
  rw [if_neg h0, findRuleConsEq] at hcontra
  by_cases h1 : inputRule.condition node = true
  · rw [if_pos h1] at hcontra; simp [inputRule] at hcontra
  rw [if_neg h1, findRuleConsEq] at hcontra
  by_cases h2 : checkboxRule.condition node = true
  · rw [if_pos h2] at hcontra; simp [checkboxRule] at hcontra
  rw [if_neg h2, findRuleConsEq] at hcontra
  by_cases h3 : radioRule.condition node = true
  · rw [if_pos h3] at hcontra; simp [radioRule] at hcontra
  rw [if_neg h3, findRuleConsEq] at hcontra
  by_cases h4 : selectRule.condition node = true
  · rw [if_pos h4] at hcontra; simp [selectRule] at hcontra
  rw [if_neg h4, findRuleConsEq] at hcontra
  by_cases h5 : badgeRule.condition node = true
  · rw [if_pos h5] at hcontra; simp [badgeRule] at hcontra
  rw [if_neg h5, findRuleConsEq] at hcontra
  by_cases h6 : modalRule.condition node = true
  · rw [if_pos h6] at hcontra; simp [modalRule] at hcontra
  rw [if_neg h6, findRuleConsEq] at hcontra
  by_cases h7 : tabRule.condition node = true
  · rw [if_pos h7] at hcontra; simp [tabRule] at hcontra
  rw [if_neg h7, findRuleConsEq] at hcontra
  by_cases h8 : paginationRule.condition node = true
  · rw [if_pos h8] at hcontra; simp [paginationRule] at hcontra
  rw [if_neg h8, findRuleConsEq] at hcontra
  by_cases h9 : progressBarRule.condition node = true
  · rw [if_pos h9] at hcontra; simp [progressBarRule] at hcontra
  rw [if_neg h9, findRuleConsEq] at hcontra
  by_cases h10 : notificationRule.condition node = true
  · rw [if_pos h10] at hcontra; simp [notificationRule] at hcontra
  rw [if_neg h10, findRuleConsEq] at hcontra
  by_cases h11 : verticalTabRule.condition node = true
  · rw [if_pos h11] at hcontra; simp [verticalTabRule] at hcontra
  rw [if_neg h11, findRuleConsEq] at hcontra
  by_cases h12 : progressCircleRule.condition node = true
  · rw [if_pos h12] at hcontra; simp [progressCircleRule] at hcontra
  rw [if_neg h12, findRuleConsEq] at hcontra
  by_cases h13 : spinnerRule.condition node = true
  · rw [if_pos h13] at hcontra; simp [spinnerRule] at hcontra
  rw [if_neg h13, findRuleConsEq] at hcontra
  by_cases h14 : tagRule.condition node = true
  · exact h5 (badgeCondOfTagCond node h14)
  rw [if_neg h14, findRuleConsEq] at hcontra
  by_cases h15 : toggleRule.condition node = true
  · rw [if_pos h15] at hcontra; simp [toggleRule] at hcontra
  rw [if_neg h15, findRuleConsEq] at hcontra
  by_cases h16 : tooltipRule.condition node = true
  · rw [if_pos h16] at hcontra; simp [tooltipRule] at hcontra
  rw [if_neg h16, findRuleConsEq] at hcontra
  by_cases h17 : sliderRule.condition node = true
  · rw [if_pos h17] at hcontra; simp [sliderRule] at hcontra
  rw [if_neg h17, findRuleConsEq] at hcontra
  by_cases h18 : breadcrumbRule.condition node = true
  · rw [if_pos h18] at hcontra; simp [breadcrumbRule] at hcontra
  rw [if_neg h18, findRuleConsEq] at hcontra
  by_cases h19 : dividerRule.condition node = true
  · rw [if_pos h19] at hcontra; simp [dividerRule] at hcontra
  rw [if_neg h19, findRuleConsEq] at hcontra
  by_cases h20 : dropdownRule.condition node = true
  · rw [if_pos h20] at hcontra; simp [dropdownRule] at hcontra
  rw [if_neg h20, findRuleConsEq] at hcontra
  by_cases h21 : emptyStateRule.condition node = true
  · rw [if_pos h21] at hcontra; simp [emptyStateRule] at hcontra
  rw [if_neg h21, findRuleConsEq] at hcontra
  by_cases h22 : featuredIconRule.condition node = true
  · rw [if_pos h22] at hcontra; simp [featuredIconRule] at hcontra
  rw [if_neg h22] at hcontra
  simp [findRule] at hcontra

/-- The node refuting C4: it has a children list, but no child is
text-bearing, so the result is the empty list, not the two-item default. -/
def c4ChildNoText : SimplifiedNode := ⟨"c4c", "Nothing Here", "FRAME", none, none, none, none, none⟩

def c4Node : SimplifiedNode :=
  ⟨"c4", "Filter Dropdown", "FRAME", none, some [c4ChildNoText], none, none, none⟩

/-- C4 counterexample: a node whose children list is present but contains
no text-bearing child yields the empty item list, NOT the fixed two-item
default the claim asserts for "every node in which no child is
text-bearing". -/
theorem c4_dropdown_counterexample :
    extractDropdownItems c4Node = [] ∧
    extractDropdownItems c4Node ≠
      [{ label := "옵션 1", value := some "1", href := none },
       { label := "옵션 2", value := some "2", href := none }] := by
  constructor
  · rfl
  · decide

/-- C4 amended: each text-bearing child maps to a label/value pair whose
value is its 1-based position among the text-bearing children; the fixed
two-item default is returned exactly when the node has no children field
at all (a present children list with no text-bearing child yields the
empty list). -/
theorem c4_dropdown_items_amended (node : SimplifiedNode) :
    (node.children = none →
      extractDropdownItems node =
        [{ label := "옵션 1", value := some "1", href := none },
         { label := "옵션 2", value := some "2", href := none }]) ∧
    (∀ cs, node.children = some cs →
      (extractDropdownItems node).length = (cs.filter (fun c => jsTruthyStr c.text)).length ∧
      ∀ j c, (cs.filter (fun c => jsTruthyStr c.text))[j]? = some c →
        (extractDropdownItems node)[j]? =
          some ({ label := jsOrStr c.text ("옵션 " ++ toString (j + 1))
                  value := some (toString (j + 1))
                  href := none } : ListItem)) := by
  constructor
  · intro h
    unfold extractDropdownItems
    rw [h]
  · intro cs h
    have e : extractDropdownItems node = dropdownItemsFrom 0 (cs.filter (fun c => jsTruthyStr c.text)) := by
      unfold extractDropdownItems
      rw [h]
    rw [e]
    unfold dropdownItemsFrom
    constructor
    · exact mapWithIdxFromLength _ 0 _
    · intro j c hj
      rw [mapWithIdxFromGetElem, hj]
      simp

def c4WChildA : SimplifiedNode := ⟨"w4a", "item a", "TEXT", some "Apple", none, none, none, none⟩

def c4WChildB : SimplifiedNode := ⟨"w4b", "item b", "FRAME", none, none, none, none, none⟩

def c4WChildC : SimplifiedNode := ⟨"w4c", "item c", "TEXT", some "Cherry", none, none, none, none⟩

def c4WitnessNode : SimplifiedNode :=
  ⟨"w4", "Menu Dropdown", "FRAME", none, some [c4WChildA, c4WChildB, c4WChildC], none, none, none⟩

theorem c4_dropdown_items_amended_witness :
    (extractDropdownItems c4WitnessNode).length = 2 ∧
    (extractDropdownItems c4WitnessNode)[1]? =
      some { label := "Cherry", value := some "2", href := none } := by
  have h := (c4_dropdown_items_amended c4WitnessNode).2 [c4WChildA, c4WChildB, c4WChildC] rfl
  constructor
  · rw [h.1]
    rfl
  · have h2 := h.2 1 c4WChildC rfl
    rw [h2]
    rfl

/-- C5: generation is idempotent across runs.  `generateFromDesign`
clears the used-component set and the usage counter at entry, so a call's
outcome — markup, style text, imports and usage counts alike — does not
depend on the generator state left by any earlier call: a second call on
the same instance equals a call on a fresh instance with the same
options. -/
theorem c5_generation_idempotent (opts : NcdsHtmlGenerationOptions)
    (s1 s2 : GenState) (design : SimplifiedDesign) :
    generateFromDesign opts s1 design = generateFromDesign opts s2 design := rfl

/-- C6: `validateNcdsMapping` accepts a mapping exactly when its component
kind belongs to the fixed 23-kind enumeration, and rejects every other
kind string.  The validator is a pure membership test. -/
theorem c6_validate_iff_supported (m : NcdsComponentMapping) :
    validateNcdsMapping m = true ↔
      m.component ∈
        ["Button", "InputBase", "Checkbox", "Radio", "Select", "Badge", "Modal",
         "HorizontalTab", "VerticalTab", "Pagination", "ProgressBar", "ProgressCircle",
         "Notification", "Spinner", "Tag", "Tooltip", "Slider", "Toggle",
         "BreadCrumb", "Divider", "Dropdown", "EmptyState", "FeaturedIcon"] := by
  unfold validateNcdsMapping validComponents
  simp [List.contains, List.elem_iff]

/-- C7: for every node whose lower-cased name contains "tab" and also
contains "table", the HorizontalTab rule's predicate evaluates to false,
so that rule never yields a HorizontalTab mapping for such a node. -/
theorem c7_tab_rule_rejects_table (node : SimplifiedNode)
    (htab : jsIncludes (toLowerStr node.name) "tab" = true)
    (htable : jsIncludes (toLowerStr node.name) "table" = true) :
    tabRule.condition node = false := by
  dsimp only [tabRule]
  rw [htable]
  simp

def c7WitnessNode : SimplifiedNode := ⟨"w7", "Data Table Tabs", "FRAME", none, none, none, none, none⟩

theorem c7_tab_rule_rejects_table_witness : tabRule.condition c7WitnessNode = false :=
  c7_tab_rule_rejects_table c7WitnessNode (by decide) (by decide)

/-- C8: the progress value both progress templates embed in their markup
(the fill width and `aria-valuenow` of the progress bar, the percent text
and stroke geometry of the progress circle) is `clampProgress`, which
always lies in the closed interval zero to one hundred; in particular the
inputs 150 and -20 clamp to 100 and 0. -/
theorem c8_progress_clamped :
    (∀ p : Option Int, 0 ≤ clampProgress p ∧ clampProgress p ≤ 100) ∧
    clampProgress (some 150) = 100 ∧ clampProgress (some (-20)) = 0 := by
  refine ⟨fun p => ?_, by decide, by decide⟩
  unfold clampProgress
  exact ⟨le_min (le_max_right _ _) (by norm_num), min_le_right _ _⟩

/-- C9: on a well-typed node with every optional field absent, the
inferencers return their documented defaults (size "md", no child text,
no tab items, the default dropdown items, no inline styles), children
render to the empty string without touching the state, and rendering the
node itself still produces (non-empty) markup — nothing in the pipeline
needs the absent fields. -/
theorem c9_sparse_node_defaults (node : SimplifiedNode) (opts : NcdsHtmlGenerationOptions)
    (st : GenState)
    (htext : node.text = none) (hch : node.children = none)
    (hop : node.opacity = none) (hbr : node.borderRadius = none)
    (hlay : node.layout = none) :
    inferSize node = "md" ∧
    (∀ t, findChildText node t = none) ∧
    extractTabItems node = [] ∧
    extractDropdownItems node =
      [{ label := "옵션 1", value := some "1", href := none },
       { label := "옵션 2", value := some "2", href := none }] ∧
    generateInlineStyles node = "" ∧
    generateChildren opts node st = ("", st) ∧
    (generateNodeHtml opts node st).1 ≠ "" := by
  obtain ⟨nid, nname, nty, ntext, nch, nop, nbr, nlay⟩ := node
  simp only [SimplifiedNode.text] at htext
  simp only [SimplifiedNode.children] at hch
  simp only [SimplifiedNode.opacity] at hop
  simp only [SimplifiedNode.borderRadius] at hbr
  simp only [SimplifiedNode.layout] at hlay
  subst htext hch hop hbr hlay
  refine ⟨rfl, fun t => rfl, rfl, rfl, rfl, rfl, ?_⟩
  simp only [generateNodeHtml]
  split
  · dsimp only [generateChildrenAux]
    split
    · repeat' first | decide | apply concatNeEmpty
    · rw [emptyAppendStr]
      apply dispatchComponentHtmlNeEmpty
  · dsimp only [generateChildrenAux]
    repeat' first | decide | apply concatNeEmpty

def c9WitnessNode : SimplifiedNode := ⟨"w9", "Sparse Panel", "FRAME", none, none, none, none, none⟩

theorem c9_sparse_node_defaults_witness :
    inferSize c9WitnessNode = "md" ∧ (generateNodeHtml {} c9WitnessNode {}).1 ≠ "" := by
  have h := c9_sparse_node_defaults c9WitnessNode {} {} rfl rfl rfl rfl rfl
  exact ⟨h.1, h.2.2.2.2.2.2⟩

/-- C10: a `FRAME` whose lower-cased name contains "text" but not "label",
and which misses the Button rule (none of "button", "btn", "click",
"submit" in the name), classifies as an InputBase mapping: the Input
rule's predicate also fires on "text"-named frames. -/
theorem c10_text_frame_infers_input (node : SimplifiedNode)
    (hty : node.type = "FRAME")
    (htext : jsIncludes (toLowerStr node.name) "text" = true)
    (hlabel : jsIncludes (toLowerStr node.name) "label" = false)
    (hbutton : jsIncludes (toLowerStr node.name) "button" = false)
    (hbtn : jsIncludes (toLowerStr node.name) "btn" = false)
    (hclick : jsIncludes (toLowerStr node.name) "click" = false)
    (hsubmit : jsIncludes (toLowerStr node.name) "submit" = false) :
    (mapToNcdsComponent node).map NcdsComponentMapping.component = some "InputBase" := by
  have hb : ¬(buttonRule.condition node = true) := by
    dsimp only [buttonRule]
    rw [hty, hbutton, hbtn, hclick, hsubmit]
    decide
  have hi : inputRule.condition node = true := by
    dsimp only [inputRule]
    rw [hty, htext, hlabel]
    simp
  unfold mapToNcdsComponent NCDS_COMPONENT_RULES
  rw [findRuleConsEq, if_neg hb, findRuleConsEq, if_pos hi]
  rfl

def c10WitnessNode : SimplifiedNode := ⟨"w10", "Text Area", "FRAME", none, none, none, none, none⟩

theorem c10_text_frame_infers_input_witness :
    (mapToNcdsComponent c10WitnessNode).map NcdsComponentMapping.component = some "InputBase" :=
  c10_text_frame_infers_input c10WitnessNode rfl (by decide) (by decide) (by decide) (by decide)
    (by decide) (by decide)
